import Mathlib

/-!
Shallow embedding of the monitoring and failover engine of
`src/commands/status_ui_v2.rs` (solana-validator-switch).

Strings are modelled as Lean `String`; character positions stand in for
Rust byte positions (they coincide on the ASCII inputs the claims use).
Instants are modelled as naturals counting milliseconds, so that Rust's
`Instant::elapsed().as_secs()` becomes truncating division by 1000.
-/

namespace Svs

/-- Character-list search: first index at which `pat` occurs in `l`
(mirrors Rust `str::find` for string patterns). -/
def findSubAux (pat : List Char) : List Char → Nat → Option Nat
  | [], i => if pat.isPrefixOf ([] : List Char) then some i else none
  | c :: t, i => if pat.isPrefixOf (c :: t) then some i else findSubAux pat t (i + 1)

/-- Rust `str::find(pattern)` over our char-position model. -/
def strFind (s pat : String) : Option Nat :=
  findSubAux pat.data s.data 0

/-- Rust `str::contains(pattern)`. -/
def strContains (s pat : String) : Bool :=
  (strFind s pat).isSome

/-- Index of the last occurrence of character `c` in `l`
(mirrors Rust `str::rfind(char)`). -/
def rfindChar : List Char → Char → Option Nat
  | [], _ => none
  | a :: t, c =>
    match rfindChar t c with
    | some i => some (i + 1)
    | none => if a = c then some 0 else none

/-- Rust `str::parse::<u64>()`: optional leading `+`, one or more ASCII
digits, value within `u64` range. -/
def parseU64 (l : List Char) : Option Nat :=
  let l' := match l with
    | '+' :: t => t
    | _ => l
  if l'.isEmpty then none
  else if l'.all Char.isDigit then
    let v := l'.foldl (fun acc c => acc * 10 + (c.toNat - 48)) 0
    if v < 2 ^ 64 then some v else none
  else none

/-- Rust `str::trim` (whitespace stripped from both ends). -/
def trimChars (l : List Char) : List Char :=
  ((l.dropWhile Char.isWhitespace).reverse.dropWhile Char.isWhitespace).reverse

/-- Embedding of `parse_catchup_output` (status_ui_v2.rs:1357-1404). -/
def parse_catchup_output (output : String) (is_firedancer : Bool) : String :=
  if is_firedancer then
    if strContains output "running" then "Caught up" else "Not running"
  else
    if strContains output "0 slot(s)" || strContains output "has caught up" then
      "Caught up"
    else
      match strFind output " slot(s) behind" with
      | some pos =>
        let pre := output.data.take pos
        let start := match rfindChar pre ' ' with
          | some i => i + 1
          | none => 0
        let slots_str := pre.drop start
        match parseU64 slots_str with
        | some slots => toString slots ++ " slots behind"
        | none => output
      | none =>
        if strContains output "bash:" && strContains output "line" then
          if strContains output "command not found" || strContains output "No such file" then
            "CLI not found"
          else
            "Command error"
        else if strContains output "Error" || strContains output "error" then
          if strContains output "RPC" then "RPC Error"
          else if strContains output "connection" then "Connection Error"
          else "Error"
        else if (trimChars output.data).isEmpty then
          "Waiting..."
        else
          let trimmed := trimChars output.data
          if trimmed.length > 40 then
            String.mk (trimmed.take 37) ++ "..."
          else
            String.mk trimmed

/-- Embedding of the per-line sync-status parsing inside
`refresh_node_status_and_identity` (status_ui_v2.rs:3244-3259): on a
caught-up line, the text after `us:` up to the next space becomes the
reported slot. -/
def parse_sync_line (line : String) : Option String :=
  if strContains line " has caught up" || strContains line "0 slot(s) behind" then
    some (match strFind line "us:" with
      | some us_start =>
        let rest := line.data.drop (us_start + 3)
        let relEnd := match findSubAux [' '] rest 0 with
          | some i => i
          | none => rest.length
        "Caught up (slot: " ++ String.mk (rest.take relEnd) ++ ")"
      | none => "Caught up")
  else
    none

/-- Split a character list at every newline character. -/
def splitOnNewline : List Char → List (List Char)
  | [] => [[]]
  | c :: t =>
    let r := splitOnNewline t
    if c = '\x0a' then [] :: r
    else match r with
      | h :: t' => (c :: h) :: t'
      | [] => [[c]]

/-- Rust `str::lines`: split on newline, drop a trailing empty segment,
strip a trailing carriage return from each line. -/
def rustLines (s : String) : List String :=
  let parts := splitOnNewline s.data
  let parts := match parts.getLast? with
    | some last => if last.isEmpty then parts.dropLast else parts
    | none => parts
  parts.map fun p =>
    match p.getLast? with
    | some c => if c = '\x0d' then String.mk p.dropLast else String.mk p
    | none => String.mk p

/-- Embedding of the catchup half of `refresh_node_status_and_identity`
(status_ui_v2.rs:3240-3263): first matching line wins, else `Unknown`. -/
def catchup_sync_status (output : String) : String :=
  match (rustLines output).findSome? parse_sync_line with
  | some s => s
  | none => "Unknown"

/-- Modelled from the spec: `FailureTracker` of `crate::types` (not under
src/): counter, first-failure timestamp and last error message. -/
structure FailureTracker where
  consecutive_failures : Nat
  first_failure_at : Option Nat
  last_error : Option String
deriving Repr, DecidableEq

/-- Modelled from the spec: `FailureTracker::new` starts zeroed. -/
def FailureTracker.new : FailureTracker :=
  { consecutive_failures := 0, first_failure_at := none, last_error := none }

/-- Modelled from the spec: `record_success()` resets all three fields. -/
def FailureTracker.record_success (_t : FailureTracker) : FailureTracker :=
  FailureTracker.new

/-- Modelled from the spec: `record_failure(msg)` increments, sets
`first_failure_at` on the first consecutive failure, stores `msg`. -/
def FailureTracker.record_failure (t : FailureTracker) (now : Nat) (msg : String) :
    FailureTracker :=
  { consecutive_failures := t.consecutive_failures + 1,
    first_failure_at := if t.consecutive_failures = 0 then some now else t.first_failure_at,
    last_error := some msg }

/-- Modelled from the spec: `seconds_since_first_failure` derived field. -/
def FailureTracker.seconds_since_first_failure (t : FailureTracker) (now : Nat) :
    Option Nat :=
  t.first_failure_at.map (fun s => (now - s) / 1000)

/-- `SshHealthStatus` (status_ui_v2.rs:140-144). -/
structure SshHealthStatus where
  is_healthy : Bool
  last_success : Option Nat
  failure_start : Option Nat
deriving Repr, DecidableEq

/-- Modelled from the spec: `NodeHealthStatus` of `crate::types` (not
under src/); field use matches status_ui_v2.rs. -/
structure NodeHealthStatus where
  ssh_status : FailureTracker
  rpc_status : FailureTracker
  is_voting : Bool
  last_vote_slot : Option Nat
  last_vote_time : Option Nat
deriving Repr, DecidableEq

/-- Recognized alert configuration options (spec section 6; read in
status_ui_v2.rs via `app_state.config.alert_config`). -/
structure AlertConfig where
  enabled : Bool
  auto_failover_enabled : Bool
  delinquency_threshold_seconds : Nat
  ssh_failure_threshold_seconds : Nat
  rpc_failure_threshold_seconds : Nat
deriving Repr, DecidableEq

/-- An `AlertManager` is constructed iff an alert config is present and
enabled (status_ui_v2.rs:321-326). -/
def alertManagerPresent (cfg : Option AlertConfig) : Bool :=
  match cfg with
  | some c => c.enabled
  | none => false

/-- Modelled from the spec: one slot of `ComprehensiveAlertTracker` of
`crate::alert` (not under src/): the last-alert timestamp for one
(validator, probe-kind) key. -/
structure AlertTracker where
  last_alert_at : Option Nat
deriving Repr, DecidableEq

/-- Modelled from the spec: a fresh suppression record is unset. -/
def AlertTracker.new : AlertTracker := { last_alert_at := none }

/-- Modelled from the spec: `reset` re-arms the suppressor. -/
def AlertTracker.reset (_t : AlertTracker) : AlertTracker := AlertTracker.new

/-- Modelled from the spec: delinquency `should_send_alert` permits a
single alert until re-armed by a slot advance (spec sections 3 and 4.7);
a true return records `last_alert_at`. -/
def AlertTracker.should_send_delinquency (t : AlertTracker) (now : Nat) :
    Bool × AlertTracker :=
  match t.last_alert_at with
  | none => (true, { last_alert_at := some now })
  | some _ => (false, t)

/-- Modelled from the spec: windowed `should_send_alert` for RPC/SSH
probe kinds: true iff unset or older than the window (seconds); a true
return records `last_alert_at`. -/
def AlertTracker.should_send_windowed (t : AlertTracker) (now window : Nat) :
    Bool × AlertTracker :=
  match t.last_alert_at with
  | none => (true, { last_alert_at := some now })
  | some prev =>
    if (now - prev) / 1000 ≥ window then (true, { last_alert_at := some now })
    else (false, t)

/-- Result of one `fetch_vote_account_data` call, reduced to the last
recent-vote slot the poller reads from it (status_ui_v2.rs:343,418). -/
inductive FetchResult where
  | ok (obs : Option Nat)
  | err (msg : String)
deriving Repr, DecidableEq

/-- Per-validator slice of `UiState` touched by one Vote Poller cycle
(status_ui_v2.rs:46-88), plus the per-validator suppression records of
the poller task. `vote_slot` is `vote_data[idx]` reduced to its last
recent-vote slot. -/
structure ValidatorVoteState where
  vote_slot : Option (Option Nat)
  tracked : Option (Nat × Nat)
  increment_time : Option Nat
  delinq_tracker : AlertTracker
  rpc_alert_tracker : AlertTracker
  rpc_failure : FailureTracker
  health : NodeHealthStatus
deriving Repr, DecidableEq

/-- Externally visible effects of one Vote Poller cycle for one
validator. -/
structure VoteCycleEffects where
  delinquency_alert_sent : Bool
  failover_spawned : Bool
  rpc_alert_sent : Bool
deriving Repr, DecidableEq

/-- Increment-flash update (status_ui_v2.rs:558-583): a strictly larger
slot records now; otherwise an existing flash is kept while under two
(whole) seconds old. -/
def incrementStep (prev_vote_slot : Option (Option Nat)) (inc : Option Nat)
    (new_slot now : Nat) : Option Nat :=
  match prev_vote_slot with
  | some (some old_slot) =>
    if new_slot > old_slot then some now
    else
      match inc with
      | some existing => if (now - existing) / 1000 < 2 then some existing else none
      | none => none
  | some none => none
  | none => none

/-- Result of the delinquency check block. -/
structure DelinqDecision where
  sent : Bool
  tracker : AlertTracker
  spawned : Bool
deriving Repr, DecidableEq

/-- Delinquency check and auto-failover gate run when the observed slot
equals the tracked slot (status_ui_v2.rs:440-556): requires an alert
manager and a tracked pair, fires at the threshold if the suppressor
permits, and then spawns the failover when the config enables it and the
consulted `NodeHealth` RPC tracker shows zero consecutive failures. -/
def delinquencyCheck (cfg : Option AlertConfig) (now : Nat)
    (tracked : Option (Nat × Nat)) (delinq_tracker : AlertTracker)
    (health : NodeHealthStatus) : DelinqDecision :=
  if alertManagerPresent cfg then
    match tracked with
    | some (_, last_change_time) =>
      let seconds_since_vote := (now - last_change_time) / 1000
      let threshold :=
        (cfg.map (fun (c : AlertConfig) => c.delinquency_threshold_seconds)).getD 30
      if seconds_since_vote ≥ threshold then
        let r := delinq_tracker.should_send_delinquency now
        if r.1 then
          let spawned :=
            match cfg with
            | some c =>
              c.enabled && c.auto_failover_enabled
                && health.rpc_status.consecutive_failures == 0
            | none => false
          { sent := true, tracker := r.2, spawned := spawned }
        else { sent := false, tracker := r.2, spawned := false }
      else { sent := false, tracker := delinq_tracker, spawned := false }
    | none => { sent := false, tracker := delinq_tracker, spawned := false }
  else { sent := false, tracker := delinq_tracker, spawned := false }

/-- One Vote Poller cycle for one validator (status_ui_v2.rs:334-611):
fetch handling with RPC failure tracking and RPC-failure alert, then the
slot-advance / delinquency / auto-failover update. The
`emergency_in_progress` argument is the current value of the
`emergency_takeover_in_progress` flag; the poller holds a handle to it
but never reads it. -/
def voteCycleStep (cfg : Option AlertConfig) (emergency_in_progress : Bool)
    (now : Nat) (st : ValidatorVoteState) (fetched : FetchResult) :
    ValidatorVoteState × VoteCycleEffects :=
  match fetched with
  | FetchResult.err msg =>
    let rpc1 := st.rpc_failure.record_failure now msg
    let seconds := (rpc1.seconds_since_first_failure now).getD 0
    let time_threshold := (cfg.map (fun c => c.rpc_failure_threshold_seconds)).getD 1800
    let (should_alert, rpcTr') :=
      if seconds ≥ time_threshold then
        st.rpc_alert_tracker.should_send_windowed now time_threshold
      else (false, st.rpc_alert_tracker)
    ({ st with
        vote_slot := none,
        increment_time := none,
        rpc_failure := rpc1,
        rpc_alert_tracker := rpcTr' },
     { delinquency_alert_sent := false,
       failover_spawned := false,
       rpc_alert_sent := should_alert && alertManagerPresent cfg })
  | FetchResult.ok obs =>
    let rpc1 := st.rpc_failure.record_success
    match obs with
    | none =>
      ({ st with
          vote_slot := some none,
          tracked := none,
          increment_time := none,
          rpc_failure := rpc1 },
       { delinquency_alert_sent := false, failover_spawned := false,
         rpc_alert_sent := false })
    | some new_slot =>
      let should_update :=
        match st.tracked with
        | some (s0, _) => s0 != new_slot
        | none => true
      let inc' := incrementStep st.vote_slot st.increment_time new_slot now
      if should_update then
        ({ st with
            vote_slot := some (some new_slot),
            tracked := some (new_slot, now),
            increment_time := inc',
            delinq_tracker := st.delinq_tracker.reset,
            rpc_failure := rpc1 },
         { delinquency_alert_sent := false, failover_spawned := false,
           rpc_alert_sent := false })
      else
        let d := delinquencyCheck cfg now st.tracked st.delinq_tracker st.health
        ({ st with
            vote_slot := some (some new_slot),
            tracked := st.tracked,
            increment_time := inc',
            delinq_tracker := d.tracker,
            rpc_failure := rpc1 },
         { delinquency_alert_sent := d.sent, failover_spawned := d.spawned,
           rpc_alert_sent := false })

/-- Bold increment indicator of the renderer
(`draw_single_node_table`, status_ui_v2.rs:2026-2031). -/
def has_recent_increment (previous_last_slot last_slot_info increment_time : Option Nat)
    (now : Nat) : Bool :=
  match previous_last_slot with
  | some prev =>
    ((last_slot_info.map (fun slot => decide (slot > prev))).getD false)
      && ((increment_time.map (fun t => decide ((now - t) / 1000 < 3))).getD false)
  | none => false

/-- Outcome of probing one node over SSH with the no-op command `true`
(status_ui_v2.rs:884-890): the node may have no detected SSH key, in
which case it is not probed at all. -/
inductive ProbeResult where
  | no_key
  | ok
  | err (msg : String)
deriving Repr, DecidableEq

/-- Failed-probe update of a node's `SshHealthStatus`
(status_ui_v2.rs:909-922 and 986-999): `last_success` is preserved and
`failure_start` is set only on the healthy-to-unhealthy edge. -/
def sshFailureStatus (current : Option SshHealthStatus) (now : Nat) : SshHealthStatus :=
  match current with
  | some cur =>
    { is_healthy := false,
      last_success := cur.last_success,
      failure_start := if cur.is_healthy then some now else cur.failure_start }
  | none =>
    { is_healthy := false, last_success := none, failure_start := some now }

/-- Successful-probe update of a node's `SshHealthStatus`
(status_ui_v2.rs:891-894 and 974-977). -/
def sshSuccessStatus (now : Nat) : SshHealthStatus :=
  { is_healthy := true, last_success := some now, failure_start := none }

/-- Per-validator slice of state touched by one SSH Health Prober cycle
(status_ui_v2.rs:857-1019): the node pair's `SshHealthStatus`, the
validator's `NodeHealthStatus`, and the node-0 SSH alert suppression
record (`alert_tracker.ssh_failure_tracker[0]`). -/
structure SshCycleState where
  node_0 : SshHealthStatus
  node_1 : SshHealthStatus
  health : NodeHealthStatus
  ssh_alert_tracker_0 : AlertTracker
deriving Repr, DecidableEq

/-- One SSH Health Prober cycle for one validator's node pair
(status_ui_v2.rs:863-1013). Node 0's outcome is recorded on
`validator_health[idx].ssh_status` and can raise an SSH-failure alert;
node 1's branch only rewrites its `SshHealthStatus`. The returned `Bool`
is whether a node-0 SSH-failure alert was sent. -/
def sshHealthCycleStep (cfg : Option AlertConfig) (now : Nat) (st : SshCycleState)
    (r0 r1 : ProbeResult) : SshCycleState × Bool :=
  let current := some (st.node_0, st.node_1)
  let (new0, health1, tracker1, alert0) :=
    match r0 with
    | ProbeResult.no_key =>
      (({ is_healthy := false, last_success := none, failure_start := none } : SshHealthStatus),
       st.health, st.ssh_alert_tracker_0, false)
    | ProbeResult.ok =>
      (sshSuccessStatus now,
       { st.health with ssh_status := st.health.ssh_status.record_success },
       st.ssh_alert_tracker_0, false)
    | ProbeResult.err msg =>
      let tr := st.health.ssh_status.record_failure now msg
      let seconds := (tr.seconds_since_first_failure now).getD 0
      let time_threshold :=
        (cfg.map (fun (c : AlertConfig) => c.ssh_failure_threshold_seconds)).getD 1800
      let (should_alert, atr') :=
        if seconds ≥ time_threshold then
          st.ssh_alert_tracker_0.should_send_windowed now time_threshold
        else (false, st.ssh_alert_tracker_0)
      (sshFailureStatus (current.map Prod.fst) now,
       { st.health with ssh_status := tr },
       atr',
       should_alert && alertManagerPresent cfg)
  let new1 :=
    match r1 with
    | ProbeResult.no_key =>
      ({ is_healthy := false, last_success := none, failure_start := none } : SshHealthStatus)
    | ProbeResult.ok => sshSuccessStatus now
    | ProbeResult.err _ => sshFailureStatus (current.map Prod.snd) now
  ({ node_0 := new0, node_1 := new1, health := health1,
     ssh_alert_tracker_0 := tracker1 }, alert0)

/-- Node roles (`crate::types::NodeStatus`, read throughout
status_ui_v2.rs). -/
inductive NodeStatus where
  | Active
  | Standby
  | Unknown
deriving Repr, DecidableEq

/-- Validator client flavors (`crate::types::ValidatorType`). -/
inductive ValidatorType where
  | Firedancer
  | Agave
  | Jito
  | Unknown
deriving Repr, DecidableEq

/-- The slice of `NodeWithStatus` the embedded functions read. -/
structure NodeWithStatus where
  label : String
  status : NodeStatus
  validator_type : ValidatorType
deriving Repr, DecidableEq

/-- Observable actions of `execute_emergency_failover`
(status_ui_v2.rs:2698-2743), in order. -/
inductive FailoverAction where
  | set_flag (b : Bool)
  | sleep_ms (ms : Nat)
  | invoke_switch (active standby : String)
  | log_error (msg : String)
deriving Repr, DecidableEq

/-- Embedding of `execute_emergency_failover` (status_ui_v2.rs:2698-2743)
as its action trace plus the final value of the
`emergency_takeover_in_progress` flag. `switch_result` is the outcome of
the external switch mechanism (`some msg` when it returned an error),
which is logged and never propagated. -/
def execute_emergency_failover (nodes : List NodeWithStatus) (flag : Bool)
    (switch_result : Option String) : List FailoverAction × Bool :=
  match nodes.find? (fun n => n.status == NodeStatus.Active),
        nodes.find? (fun n => n.status == NodeStatus.Standby) with
  | some active, some standby =>
    let errLog :=
      match switch_result with
      | some e => [FailoverAction.log_error e]
      | none => []
    ([FailoverAction.set_flag true,
      FailoverAction.sleep_ms 300,
      FailoverAction.invoke_switch active.label standby.label]
      ++ errLog
      ++ [FailoverAction.sleep_ms 3000, FailoverAction.set_flag false],
     false)
  | _, _ =>
    ([FailoverAction.log_error "could not identify active/standby nodes"], flag)

/-- `CatchupStatus` entry (status_ui_v2.rs:126-131). -/
structure CatchupStatus where
  status : String
  last_updated : Nat
  is_streaming : Bool
deriving Repr, DecidableEq

/-- Catchup-pane initialization for one validator
(status_ui_v2.rs:177-203): entries exist only for standby or Firedancer
nodes of a full pair. -/
def initial_catchup_pair (nodes : List NodeWithStatus) (now : Nat) :
    Option CatchupStatus × Option CatchupStatus :=
  if nodes.length ≥ 2 then
    (match nodes.get? 0 with
     | some n =>
       if n.status == NodeStatus.Standby || n.validator_type == ValidatorType.Firedancer then
         some { status := "⏳ Initializing...", last_updated := now, is_streaming := false }
       else none
     | none => none,
     match nodes.get? 1 with
     | some n =>
       if n.status == NodeStatus.Standby || n.validator_type == ValidatorType.Firedancer then
         some { status := "⏳ Initializing...", last_updated := now, is_streaming := false }
       else none
     | none => none)
  else (none, none)

/-- The slice of the shared `UiState` built by `EnhancedStatusApp::new`
(status_ui_v2.rs:169-259) that the claims inspect. -/
structure UiStateInit where
  vote_data : List (Option (Option Nat))
  previous_last_slots : List (Option Nat)
  increment_times : List (Option Nat)
  last_vote_slot_times : List (Option (Nat × Nat))
  catchup_data : List (Option CatchupStatus × Option CatchupStatus)
  ssh_health_data : List (SshHealthStatus × SshHealthStatus)
  validator_health : List NodeHealthStatus
  rpc_failure_tracker : List FailureTracker
deriving Repr, DecidableEq

/-- Embedding of the `UiState` initialization in `EnhancedStatusApp::new`
(status_ui_v2.rs:169-259); `now` is the construction instant. -/
def mkInitialUiState (validators : List (List NodeWithStatus)) (now : Nat) : UiStateInit :=
  { vote_data := validators.map (fun _ => none),
    previous_last_slots := [],
    increment_times := [],
    last_vote_slot_times := validators.map (fun _ => none),
    catchup_data := validators.map (fun nodes => initial_catchup_pair nodes now),
    ssh_health_data := validators.map (fun _ =>
      ({ is_healthy := true, last_success := some now, failure_start := none },
       { is_healthy := true, last_success := some now, failure_start := none })),
    validator_health := validators.map (fun _ =>
      { ssh_status := FailureTracker.new,
        rpc_status := FailureTracker.new,
        is_voting := true,
        last_vote_slot := none,
        last_vote_time := none }),
    rpc_failure_tracker := validators.map (fun _ => FailureTracker.new) }

/-- The catchup output grammar exactly as the spec words it (section 6):
one of the fixed states, or an integer count of slots behind. Stated
from the spec, for comparison with `parse_catchup_output`. -/
def specCatchupClosedSet (r : String) : Prop :=
  r ∈ ["Caught up", "CLI not found", "Command error", "RPC Error",
       "Connection Error", "Error", "Waiting...", "Not running"]
  ∨ ∃ n : Nat, r = toString n ++ " slots behind"

/-- A 62-character catchup line whose slot count is not numeric. -/
def longBehindLine : String :=
  "aaaaaaaaaaaaaaaaaaaaaaaaaaaaaaaaaaaaaaaaaaaaa x slot(s) behind"

/-- An enabled alert configuration with default thresholds and
auto-failover switched on, used as concrete input. -/
def exampleAlertConfig : AlertConfig :=
  { enabled := true, auto_failover_enabled := true,
    delinquency_threshold_seconds := 30,
    ssh_failure_threshold_seconds := 1800,
    rpc_failure_threshold_seconds := 1800 }

/-- A `NodeHealthStatus` with zeroed trackers, as built at startup. -/
def exampleHealth : NodeHealthStatus :=
  { ssh_status := FailureTracker.new, rpc_status := FailureTracker.new,
    is_voting := true, last_vote_slot := none, last_vote_time := none }

/-- A concrete per-validator poller state: slot 1000 was observed and
last changed at instant 0, no pending flash, suppressors armed. -/
def exampleVoteState : ValidatorVoteState :=
  { vote_slot := some (some 1000), tracked := some (1000, 0),
    increment_time := none, delinq_tracker := AlertTracker.new,
    rpc_alert_tracker := AlertTracker.new, rpc_failure := FailureTracker.new,
    health := exampleHealth }

/-- A concrete SSH prober state: both nodes healthy since instant 0. -/
def exampleSshState : SshCycleState :=
  { node_0 := { is_healthy := true, last_success := some 0, failure_start := none },
    node_1 := { is_healthy := true, last_success := some 0, failure_start := none },
    health := exampleHealth, ssh_alert_tracker_0 := AlertTracker.new }

/-- A concrete poller state tracking slot 100 since instant 0, with a
delinquency alert already recorded (suppressor engaged). -/
def decreaseVoteState : ValidatorVoteState :=
  { exampleVoteState with
    tracked := some (100, 0)
    delinq_tracker := { last_alert_at := some 10 } }

/-- A concrete node pair with an identifiable Active and Standby node. -/
def exampleNodes : List NodeWithStatus :=
  [{ label := "alpha", status := NodeStatus.Active, validator_type := ValidatorType.Agave },
   { label := "beta", status := NodeStatus.Standby, validator_type := ValidatorType.Jito }]

/-- C6 counterexample: on the literal caught-up line,
`parse_catchup_output` emits plain `Caught up`, not
`Caught up (slot: 1234)`; the field-refresh slot extractor fed the same
line yields `Caught up (slot: )`, because it cuts at the first space
after `us:` and the line has a space right there. -/
theorem caught_up_line_slot_mapping_refuted :
    parse_catchup_output "Node abc has caught up (us: 1234, them: 1234)" false
      = "Caught up"
    ∧ "Caught up" ≠ "Caught up (slot: 1234)"
    ∧ catchup_sync_status "Node abc has caught up (us: 1234, them: 1234)"
      = "Caught up (slot: )" := by
  refine ⟨by decide, by decide, by decide⟩

/-- Claim C6 (amended): catchup parsing maps the caught-up line to
`Caught up`, maps `Node abc is 7 slot(s) behind` to `7 slots behind`,
and maps the empty line to `Waiting...`. -/
theorem catchup_parsing_examples :
    parse_catchup_output "Node abc has caught up (us: 1234, them: 1234)" false
      = "Caught up"
    ∧ parse_catchup_output "Node abc is 7 slot(s) behind" false = "7 slots behind"
    ∧ parse_catchup_output "" false = "Waiting..." := by
  refine ⟨by decide, by decide, by decide⟩

/-- C7 counterexample: on a 62-character line whose token before
` slot(s) behind` is not numeric, `parse_catchup_output` returns the raw
input line unchanged: the result is neither in the spec's closed set nor
a truncation to at most 40 characters. -/
theorem closed_set_refuted_by_unparsed_line :
    parse_catchup_output longBehindLine false = longBehindLine
    ∧ ¬ specCatchupClosedSet (parse_catchup_output longBehindLine false)
    ∧ 40 < (parse_catchup_output longBehindLine false).length := by
  refine ⟨by decide, ?_, by decide⟩
  have hname : parse_catchup_output longBehindLine false = longBehindLine := by decide
  rw [hname]
  intro h
  rcases h with h | ⟨n, hn⟩
  · revert h; decide
  · have hsuf : (" slots behind").data <:+ longBehindLine.data := by
      rw [hn, String.data_append]
      exact List.suffix_append _ _
    revert hsuf; decide

/-- Claim C7 (amended): every result of `parse_catchup_output` is drawn
from the closed set (fixed states or an integer count of slots behind),
or is a raw line of at most 40 characters, or — when the integer before
` slot(s) behind` fails to parse as u64 — is the raw input line itself,
of unbounded length. -/
theorem catchup_output_grammar_amended (output : String) (b : Bool) :
    specCatchupClosedSet (parse_catchup_output output b)
    ∨ (parse_catchup_output output b).length ≤ 40
    ∨ parse_catchup_output output b = output := by
  unfold parse_catchup_output
  split
  · split
    · left; left; decide
    · left; left; decide
  · split
    · left; left; decide
    · split
      · dsimp only
        split
        · rename_i slots _
          left; right; exact ⟨slots, rfl⟩
        · right; right; rfl
      · split
        · split
          · left; left; decide
          · left; left; decide
        · split
          · split
            · left; left; decide
            · split
              · left; left; decide
              · left; left; decide
          · split
            · left; left; decide
            · dsimp only
              split
              · right; left
                have h1 := String.length_append
                  (String.mk ((trimChars output.data).take 37)) "..."
                have h2 : (String.mk ((trimChars output.data).take 37)).length
                    = ((trimChars output.data).take 37).length := rfl
                have h3 : ("..." : String).length = 3 := rfl
                rw [h1, h2, h3]
                have := List.length_take 37 (trimChars output.data)
                omega
              · rename_i hlen
                right; left
                simp only [Nat.not_lt] at hlen
                have h2 : (String.mk (trimChars output.data)).length
                    = (trimChars output.data).length := rfl
                rw [h2]
                omega

/-- Helper: the delinquency check reads the validator's health only
through its RPC tracker; the SSH tracker is irrelevant to it. -/
theorem delinquencyCheck_ssh_irrel (cfg : Option AlertConfig) (now : Nat)
    (tracked : Option (Nat × Nat)) (d : AlertTracker) (h : NodeHealthStatus)
    (x : FailureTracker) :
    delinquencyCheck cfg now tracked d { h with ssh_status := x }
      = delinquencyCheck cfg now tracked d h := by
  unfold delinquencyCheck
  rfl

/-- Helper: the externally visible effects of a poller cycle do not
change when the validator's SSH failure tracker is replaced. -/
theorem voteCycle_ssh_irrel (cfg : Option AlertConfig) (emg : Bool) (now : Nat)
    (st : ValidatorVoteState) (ssh : FailureTracker) (f : FetchResult) :
    (voteCycleStep cfg emg now
      { st with health := { st.health with ssh_status := ssh } } f).2
      = (voteCycleStep cfg emg now st f).2 := by
  cases f with
  | err msg => rfl
  | ok obs =>
    cases obs with
    | none => rfl
    | some s =>
      simp only [voteCycleStep, delinquencyCheck_ssh_irrel]
      split <;> rfl

/-- Helper: conditions that necessarily hold when the delinquency check
decides to spawn the failover. -/
theorem delinquencyCheck_spawned_conditions (cfg : Option AlertConfig) (now : Nat)
    (tracked : Option (Nat × Nat)) (tr : AlertTracker) (h : NodeHealthStatus)
    (hs : (delinquencyCheck cfg now tracked tr h).spawned = true) :
    (∃ c, cfg = some c ∧ c.enabled = true ∧ c.auto_failover_enabled = true)
    ∧ (delinquencyCheck cfg now tracked tr h).sent = true
    ∧ h.rpc_status.consecutive_failures = 0 := by
  rcases cfg with _ | c
  · simp [delinquencyCheck, alertManagerPresent] at hs
  · rcases tracked with _ | ⟨s0, t0⟩
    · by_cases he : c.enabled = true <;>
        simp [delinquencyCheck, alertManagerPresent, he] at hs
    · by_cases he : c.enabled = true
      · by_cases hth : (now - t0) / 1000 ≥ c.delinquency_threshold_seconds
        · cases hal : tr.last_alert_at with
          | none =>
            simp [delinquencyCheck, alertManagerPresent, he, hth,
              AlertTracker.should_send_delinquency, hal] at hs ⊢
            exact ⟨hs.1, hs.2⟩
          | some prev =>
            simp [delinquencyCheck, alertManagerPresent, he, hth,
              AlertTracker.should_send_delinquency, hal] at hs
        · simp [delinquencyCheck, alertManagerPresent, he, hth] at hs
      · simp [delinquencyCheck, alertManagerPresent, he] at hs

/-- Helper: necessary conditions for a spawn, without the
SSH-irrelevance part. -/
theorem spawn_gate_aux (cfg : Option AlertConfig) (emg : Bool) (now : Nat)
    (st : ValidatorVoteState) (f : FetchResult)
    (h : (voteCycleStep cfg emg now st f).2.failover_spawned = true) :
    (∃ c, cfg = some c ∧ c.enabled = true ∧ c.auto_failover_enabled = true)
    ∧ (voteCycleStep cfg emg now st f).2.delinquency_alert_sent = true
    ∧ st.health.rpc_status.consecutive_failures = 0
    ∧ (voteCycleStep cfg emg now st f).1.rpc_failure.consecutive_failures = 0 := by
  cases f with
  | err msg => simp [voteCycleStep] at h
  | ok obs =>
    cases obs with
    | none => simp [voteCycleStep] at h
    | some s =>
      rcases htr : st.tracked with _ | ⟨s0, t0⟩
      · simp [voteCycleStep, htr] at h
      · by_cases hbe : s0 = s
        · subst hbe
          simp only [voteCycleStep, htr, bne_self_eq_false, Bool.false_eq_true,
            if_false] at h
          obtain ⟨hc, hsent, hrpc⟩ := delinquencyCheck_spawned_conditions _ _ _ _ _ h
          refine ⟨hc, ?_, hrpc, ?_⟩
          · simp only [voteCycleStep, htr, bne_self_eq_false, Bool.false_eq_true,
              if_false]
            exact hsent
          · simp [voteCycleStep, htr, FailureTracker.record_success, FailureTracker.new]
        · simp [voteCycleStep, htr, bne_iff_ne, hbe] at h

/-- C1 counterexample: the spawn decision never consults the
`emergency_takeover_in_progress` flag. With the flag already true, a
delinquent validator still spawns the Emergency Failover Orchestrator,
refuting the claim that a spawn happens only when no other failover is
in progress. -/
theorem spawn_proceeds_while_failover_in_progress :
    (voteCycleStep (some exampleAlertConfig) true 30000 exampleVoteState
      (FetchResult.ok (some 1000))).2.failover_spawned = true := by
  decide

/-- Claim C1 (amended): a failover is spawned only when alerts are
enabled and auto-failover is enabled and a delinquency alert was just
dispatched and the consulted NodeHealth RPC tracker records zero
consecutive failures (the cycle's RPC fetch succeeded, so the poller's
RPC failure tracker is also zero after the cycle); SSH failures never
block the spawn. Whether another failover is in progress is not
consulted. -/
theorem spawn_gate_conditions (cfg : Option AlertConfig) (emg : Bool) (now : Nat)
    (st : ValidatorVoteState) (f : FetchResult)
    (h : (voteCycleStep cfg emg now st f).2.failover_spawned = true) :
    (∃ c, cfg = some c ∧ c.enabled = true ∧ c.auto_failover_enabled = true)
    ∧ (voteCycleStep cfg emg now st f).2.delinquency_alert_sent = true
    ∧ st.health.rpc_status.consecutive_failures = 0
    ∧ (voteCycleStep cfg emg now st f).1.rpc_failure.consecutive_failures = 0
    ∧ (∀ ssh, (voteCycleStep cfg emg now
        { st with health := { st.health with ssh_status := ssh } } f).2.failover_spawned
          = true) := by
  obtain ⟨h1, h2, h3, h4⟩ := spawn_gate_aux cfg emg now st f h
  refine ⟨h1, h2, h3, h4, ?_⟩
  intro ssh
  rw [voteCycle_ssh_irrel]
  exact h

/-- Witness for C1 at the concrete delinquent state. -/
theorem spawn_gate_conditions_witness :
    (∃ c, (some exampleAlertConfig : Option AlertConfig) = some c ∧ c.enabled = true
      ∧ c.auto_failover_enabled = true)
    ∧ (voteCycleStep (some exampleAlertConfig) false 30000 exampleVoteState
        (FetchResult.ok (some 1000))).2.delinquency_alert_sent = true
    ∧ exampleVoteState.health.rpc_status.consecutive_failures = 0
    ∧ (voteCycleStep (some exampleAlertConfig) false 30000 exampleVoteState
        (FetchResult.ok (some 1000))).1.rpc_failure.consecutive_failures = 0
    ∧ (∀ ssh, (voteCycleStep (some exampleAlertConfig) false 30000
        { exampleVoteState with
          health := { exampleVoteState.health with ssh_status := ssh } }
        (FetchResult.ok (some 1000))).2.failover_spawned = true) :=
  spawn_gate_conditions (some exampleAlertConfig) false 30000 exampleVoteState
    (FetchResult.ok (some 1000)) (by decide)

/-- C2 counterexample: an observed slot strictly below the tracked slot
(50 against 100) still updates the tracked pair to (50, now) and
re-arms the delinquency suppressor, refuting the claim that the update
happens only on a strict increase. -/
theorem tracked_updates_on_slot_decrease :
    (voteCycleStep (some exampleAlertConfig) false 5000 decreaseVoteState
        (FetchResult.ok (some 50))).1.tracked = some (50, 5000)
    ∧ (voteCycleStep (some exampleAlertConfig) false 5000 decreaseVoteState
        (FetchResult.ok (some 50))).1.delinq_tracker.last_alert_at = none
    ∧ 50 < 100 := by
  refine ⟨by decide, by decide, by decide⟩

/-- Claim C2 (amended): the tracked pair is updated to (new slot, now)
and the delinquency suppressor re-armed iff the observed slot differs
from the tracked one (also when nothing is tracked yet); when the
observed slot equals the tracked slot, or the RPC call failed, the
existing pair is kept unchanged. -/
theorem tracked_update_characterization (cfg : Option AlertConfig) (emg : Bool)
    (now : Nat) (st : ValidatorVoteState) (s : Nat) :
    (st.tracked = none →
      (voteCycleStep cfg emg now st (FetchResult.ok (some s))).1.tracked = some (s, now)
      ∧ (voteCycleStep cfg emg now st (FetchResult.ok (some s))).1.delinq_tracker
          = AlertTracker.new)
    ∧ (∀ s0 t0, st.tracked = some (s0, t0) → s0 ≠ s →
      (voteCycleStep cfg emg now st (FetchResult.ok (some s))).1.tracked = some (s, now)
      ∧ (voteCycleStep cfg emg now st (FetchResult.ok (some s))).1.delinq_tracker
          = AlertTracker.new)
    ∧ (∀ t0, st.tracked = some (s, t0) →
      (voteCycleStep cfg emg now st (FetchResult.ok (some s))).1.tracked = some (s, t0))
    ∧ (∀ msg, (voteCycleStep cfg emg now st (FetchResult.err msg)).1.tracked = st.tracked
      ∧ (voteCycleStep cfg emg now st (FetchResult.err msg)).1.delinq_tracker
          = st.delinq_tracker) := by
  refine ⟨?_, ?_, ?_, ?_⟩
  · intro h
    simp [voteCycleStep, h, AlertTracker.reset, AlertTracker.new]
  · intro s0 t0 h hne
    simp [voteCycleStep, h, bne_iff_ne, hne, AlertTracker.reset, AlertTracker.new]
  · intro t0 h
    simp [voteCycleStep, h]
  · intro msg
    simp [voteCycleStep]

/-- Witness for C2: a strictly larger slot updates the pair. -/
theorem tracked_update_characterization_witness :
    (voteCycleStep (some exampleAlertConfig) false 7000 exampleVoteState
        (FetchResult.ok (some 2000))).1.tracked = some (2000, 7000)
    ∧ (voteCycleStep (some exampleAlertConfig) false 7000 exampleVoteState
        (FetchResult.ok (some 2000))).1.delinq_tracker = AlertTracker.new :=
  (tracked_update_characterization (some exampleAlertConfig) false 7000 exampleVoteState
    2000).2.1 1000 0 rfl (by decide)

/-- Claim C3: with alerts enabled and a tracked pair, on a cycle whose
observed slot equals the tracked slot a delinquency alert is sent iff
the elapsed seconds since the tracked change reach the threshold and
the suppressor is unset; sending engages the suppressor (so later
cycles send nothing until a slot change re-arms it), and a cycle that
does not send leaves the suppressor unchanged. -/
theorem delinquency_alert_boundary (c : AlertConfig) (emg : Bool) (now : Nat)
    (st : ValidatorVoteState) (s t0 : Nat)
    (henabled : c.enabled = true) (htr : st.tracked = some (s, t0)) :
    ((voteCycleStep (some c) emg now st
        (FetchResult.ok (some s))).2.delinquency_alert_sent = true
      ↔ ((now - t0) / 1000 ≥ c.delinquency_threshold_seconds
         ∧ st.delinq_tracker.last_alert_at = none))
    ∧ ((voteCycleStep (some c) emg now st
        (FetchResult.ok (some s))).2.delinquency_alert_sent = true →
      (voteCycleStep (some c) emg now st
        (FetchResult.ok (some s))).1.delinq_tracker.last_alert_at = some now)
    ∧ ((voteCycleStep (some c) emg now st
        (FetchResult.ok (some s))).2.delinquency_alert_sent = false →
      (voteCycleStep (some c) emg now st
        (FetchResult.ok (some s))).1.delinq_tracker = st.delinq_tracker) := by
  by_cases hth : (now - t0) / 1000 ≥ c.delinquency_threshold_seconds
  · cases hal : st.delinq_tracker.last_alert_at with
    | none =>
      simp [voteCycleStep, htr, delinquencyCheck, alertManagerPresent, henabled,
        AlertTracker.should_send_delinquency, hal, hth]
    | some prev =>
      simp [voteCycleStep, htr, delinquencyCheck, alertManagerPresent, henabled,
        AlertTracker.should_send_delinquency, hal, hth]
  · simp [voteCycleStep, htr, delinquencyCheck, alertManagerPresent, henabled,
      AlertTracker.should_send_delinquency, hth]

/-- Witness for C3 at the exact threshold: thirty elapsed seconds with a
thirty-second threshold send the alert. -/
theorem delinquency_alert_boundary_witness :
    (voteCycleStep (some exampleAlertConfig) false 30000 exampleVoteState
      (FetchResult.ok (some 1000))).2.delinquency_alert_sent = true :=
  ((delinquency_alert_boundary exampleAlertConfig false 30000 exampleVoteState 1000 0
    rfl rfl).1).mpr ⟨by decide, rfl⟩

/-- C4 counterexample: node 1's probe fails yet the validator's
NodeHealth SSH tracker still records zero consecutive failures (a
record_failure call would have made it positive), and no SSH alert is
raised; only node 1's own SshHealthStatus turns unhealthy. -/
theorem node1_probe_not_recorded :
    ((sshHealthCycleStep (some exampleAlertConfig) 1000 exampleSshState ProbeResult.ok
        (ProbeResult.err "connection refused")).1.health.ssh_status.consecutive_failures
      = 0)
    ∧ ((sshHealthCycleStep (some exampleAlertConfig) 1000 exampleSshState ProbeResult.ok
        (ProbeResult.err "connection refused")).1.node_1.is_healthy = false)
    ∧ ((sshHealthCycleStep (some exampleAlertConfig) 1000 exampleSshState ProbeResult.ok
        (ProbeResult.err "connection refused")).2 = false) := by
  refine ⟨by decide, by decide, by decide⟩

/-- Claim C4 (amended): only node 0's probe outcome is recorded on the
validator's NodeHealth SSH tracker (record_success on success,
record_failure on failure, nothing when unprobed), and only node 0 can
emit an SSH-failure alert, exactly when seconds since first failure
reach the threshold and the node-0 suppressor permits and alerts are
enabled; node 1's probe rewrites only its own SshHealthStatus and never
influences the alert decision. -/
theorem ssh_cycle_recording (cfg : Option AlertConfig) (now : Nat) (st : SshCycleState) :
    (∀ r1, (sshHealthCycleStep cfg now st ProbeResult.ok r1).1.health
      = { st.health with ssh_status := st.health.ssh_status.record_success })
    ∧ (∀ r1 msg, (sshHealthCycleStep cfg now st (ProbeResult.err msg) r1).1.health
      = { st.health with ssh_status := st.health.ssh_status.record_failure now msg })
    ∧ (∀ r1, (sshHealthCycleStep cfg now st ProbeResult.no_key r1).1.health = st.health)
    ∧ (∀ r1 msg, (sshHealthCycleStep cfg now st (ProbeResult.err msg) r1).2
      = (decide ((((st.health.ssh_status.record_failure now msg
            ).seconds_since_first_failure now).getD 0)
          ≥ (cfg.map (fun (c : AlertConfig) => c.ssh_failure_threshold_seconds)).getD 1800)
        && (st.ssh_alert_tracker_0.should_send_windowed now
            ((cfg.map (fun (c : AlertConfig) =>
              c.ssh_failure_threshold_seconds)).getD 1800)).1
        && alertManagerPresent cfg))
    ∧ (∀ r0 r1 r1', (sshHealthCycleStep cfg now st r0 r1).2
        = (sshHealthCycleStep cfg now st r0 r1').2)
    ∧ (∀ r0, (sshHealthCycleStep cfg now st r0 ProbeResult.ok).1.node_1
        = sshSuccessStatus now)
    ∧ (∀ r0 msg, (sshHealthCycleStep cfg now st r0 (ProbeResult.err msg)).1.node_1
        = sshFailureStatus (some st.node_1) now) := by
  refine ⟨fun r1 => rfl, fun r1 msg => rfl, fun r1 => rfl, ?_, ?_, ?_, ?_⟩
  · intro r1 msg
    simp only [sshHealthCycleStep]
    by_cases hth : (((st.health.ssh_status.record_failure now msg
          ).seconds_since_first_failure now).getD 0)
        ≥ (cfg.map (fun (c : AlertConfig) => c.ssh_failure_threshold_seconds)).getD 1800
    · simp [hth]
    · simp [hth]
  · intro r0 r1 r1'
    cases r0 <;> rfl
  · intro r0
    cases r0 <;> rfl
  · intro r0 msg
    cases r0 <;> rfl

/-- Claim C5: on a failed probe the previous last_success is preserved
and failure_start is assigned now only on the healthy-to-unhealthy
transition, being preserved across consecutive failures; a successful
probe marks the node healthy with last_success now and failure_start
cleared to none; and the prober applies exactly these updates to
node 0's SshHealthStatus. -/
theorem ssh_status_transition_spec (cur : SshHealthStatus) (now : Nat) :
    (sshFailureStatus (some cur) now).is_healthy = false
    ∧ (sshFailureStatus (some cur) now).last_success = cur.last_success
    ∧ (cur.is_healthy = true → (sshFailureStatus (some cur) now).failure_start = some now)
    ∧ (cur.is_healthy = false →
        (sshFailureStatus (some cur) now).failure_start = cur.failure_start)
    ∧ (sshSuccessStatus now).is_healthy = true
    ∧ (sshSuccessStatus now).last_success = some now
    ∧ (sshSuccessStatus now).failure_start = none
    ∧ (∀ (cfg : Option AlertConfig) (st : SshCycleState) (r1 : ProbeResult) (msg : String),
        (sshHealthCycleStep cfg now st (ProbeResult.err msg) r1).1.node_0
          = sshFailureStatus (some st.node_0) now)
    ∧ (∀ (cfg : Option AlertConfig) (st : SshCycleState) (r1 : ProbeResult),
        (sshHealthCycleStep cfg now st ProbeResult.ok r1).1.node_0
          = sshSuccessStatus now) := by
  refine ⟨rfl, rfl, ?_, ?_, rfl, rfl, rfl, fun cfg st r1 msg => rfl, fun cfg st r1 => rfl⟩
  · intro h
    simp [sshFailureStatus, h]
  · intro h
    simp [sshFailureStatus, h]

/-- Witness for C5: a healthy node failing at instant 7 gets
failure_start 7. -/
theorem ssh_status_transition_spec_witness :
    (sshFailureStatus
      (some { is_healthy := true, last_success := some 0, failure_start := none }) 7
      ).failure_start = some 7 :=
  (ssh_status_transition_spec
    { is_healthy := true, last_success := some 0, failure_start := none } 7).2.2.1 rfl

/-- Claim C8: when an Active or a Standby node cannot be identified the
orchestrator aborts without touching the emergency flag; otherwise its
trace is set-flag-true, sleep 300 ms, invoke the switch, log (never
propagate) any switch error, sleep 3 s, set-flag-false, and the final
flag is false for every switch outcome. -/
theorem emergency_failover_flag_spec (nodes : List NodeWithStatus) (flag : Bool)
    (res : Option String) :
    ((nodes.find? (fun n => n.status == NodeStatus.Active) = none
      ∨ nodes.find? (fun n => n.status == NodeStatus.Standby) = none) →
      ((execute_emergency_failover nodes flag res).2 = flag
       ∧ ∀ b, FailoverAction.set_flag b ∉ (execute_emergency_failover nodes flag res).1))
    ∧ (∀ a s, nodes.find? (fun n => n.status == NodeStatus.Active) = some a →
        nodes.find? (fun n => n.status == NodeStatus.Standby) = some s →
        ((execute_emergency_failover nodes flag res).1
          = [FailoverAction.set_flag true, FailoverAction.sleep_ms 300,
             FailoverAction.invoke_switch a.label s.label]
            ++ (match res with
                | some e => [FailoverAction.log_error e]
                | none => [])
            ++ [FailoverAction.sleep_ms 3000, FailoverAction.set_flag false]
         ∧ (execute_emergency_failover nodes flag res).2 = false)) := by
  constructor
  · intro hn
    rcases hfa : nodes.find? (fun n => n.status == NodeStatus.Active) with _ | a
    · simp [execute_emergency_failover, hfa]
    · rcases hfs : nodes.find? (fun n => n.status == NodeStatus.Standby) with _ | s
      · simp [execute_emergency_failover, hfa, hfs]
      · rcases hn with hn | hn
        · rw [hfa] at hn
          exact absurd hn (by simp)
        · rw [hfs] at hn
          exact absurd hn (by simp)
  · intro a s ha hs
    cases res <;> simp [execute_emergency_failover, ha, hs]

/-- Witness for C8: a full run over the example pair with a failing
switch ends with the flag cleared and the error merely logged. -/
theorem emergency_failover_flag_spec_witness :
    (execute_emergency_failover exampleNodes true (some "ssh timeout")).1
      = [FailoverAction.set_flag true, FailoverAction.sleep_ms 300,
         FailoverAction.invoke_switch "alpha" "beta",
         FailoverAction.log_error "ssh timeout",
         FailoverAction.sleep_ms 3000, FailoverAction.set_flag false]
    ∧ (execute_emergency_failover exampleNodes true (some "ssh timeout")).2 = false := by
  have h := (emergency_failover_flag_spec exampleNodes true (some "ssh timeout")).2
    { label := "alpha", status := NodeStatus.Active, validator_type := ValidatorType.Agave }
    { label := "beta", status := NodeStatus.Standby, validator_type := ValidatorType.Jito }
    (by decide) (by decide)
  simpa using h

/-- C9 counterexample: at 2.5 elapsed seconds (under the claimed three)
a poll without a further increase already drops the recorded increment
timestamp, because the poller keeps it only while the whole-second
elapsed time is below two. -/
theorem increment_dropped_before_three_seconds :
    (voteCycleStep (some exampleAlertConfig) false 2500
        { exampleVoteState with increment_time := some 0 }
        (FetchResult.ok (some 1000))).1.increment_time = none
    ∧ 2500 < 3 * 1000 := by
  refine ⟨by decide, by decide⟩

/-- Claim C9 (amended): a strictly increasing slot records the current
instant; without a further increase the poller retains the timestamp
only while under two whole seconds old, dropping it afterwards; the
renderer shows the bold style while the displayed slot exceeds the
previous one and the timestamp is under three seconds old. -/
theorem increment_flash_spec (cfg : Option AlertConfig) (emg : Bool) (now : Nat)
    (st : ValidatorVoteState) (s : Nat) :
    ((voteCycleStep cfg emg now st (FetchResult.ok (some s))).1.increment_time
      = incrementStep st.vote_slot st.increment_time s now)
    ∧ (∀ old inc, old < s → incrementStep (some (some old)) inc s now = some now)
    ∧ (∀ old t, ¬ old < s → (now - t) / 1000 < 2 →
        incrementStep (some (some old)) (some t) s now = some t)
    ∧ (∀ old t, ¬ old < s → ¬ (now - t) / 1000 < 2 →
        incrementStep (some (some old)) (some t) s now = none)
    ∧ (∀ prev t, has_recent_increment (some prev) (some s) (some t) now
        = (decide (prev < s) && decide ((now - t) / 1000 < 3))) := by
  refine ⟨?_, ?_, ?_, ?_, ?_⟩
  · simp only [voteCycleStep]
    split <;> rfl
  · intro old inc hlt
    simp [incrementStep, hlt]
  · intro old t hnl hlt2
    simp [incrementStep, hnl, hlt2]
  · intro old t hnl hlt2
    simp [incrementStep, hnl, hlt2]
  · intro prev t
    simp [has_recent_increment]

/-- Witness for C9: an unchanged slot with a 1.5-second-old flash keeps
the flash. -/
theorem increment_flash_spec_witness :
    incrementStep (some (some 5)) (some 0) 5 1500 = some 0 :=
  (increment_flash_spec none false 1500 exampleVoteState 5).2.2.1 5 0
    (by decide) (by decide)

/-- Claim C10: at construction every validator entry starts with both
nodes' SshHealthStatus healthy (last_success now, failure_start none),
a NodeHealth with zeroed trackers and is_voting true, a zeroed RPC
failure tracker, no vote data and no tracked slot pair. -/
theorem initial_state_healthy (vs : List (List NodeWithStatus)) (now : Nat) (i : Nat)
    (h : i < vs.length) :
    (mkInitialUiState vs now).ssh_health_data.get? i
      = some ({ is_healthy := true, last_success := some now, failure_start := none },
              { is_healthy := true, last_success := some now, failure_start := none })
    ∧ (mkInitialUiState vs now).validator_health.get? i
      = some { ssh_status := FailureTracker.new, rpc_status := FailureTracker.new,
               is_voting := true, last_vote_slot := none, last_vote_time := none }
    ∧ (mkInitialUiState vs now).rpc_failure_tracker.get? i = some FailureTracker.new
    ∧ (mkInitialUiState vs now).vote_data.get? i = some none
    ∧ (mkInitialUiState vs now).last_vote_slot_times.get? i = some none := by
  refine ⟨?_, ?_, ?_, ?_, ?_⟩ <;>
    simp [mkInitialUiState, List.getElem?_replicate, h]

/-- Witness for C10 on a one-validator configuration. -/
theorem initial_state_healthy_witness :
    (mkInitialUiState [exampleNodes] 42).validator_health.get? 0
      = some { ssh_status := FailureTracker.new, rpc_status := FailureTracker.new,
               is_voting := true, last_vote_slot := none, last_vote_time := none } :=
  (initial_state_healthy [exampleNodes] 42 0 (by decide)).2.1

end Svs
